import Mathlib

/-
Verification of the diagnostic bridge of `arctemplate.py` (PatHarrison/ArcTemplate).

The bridge consists of:
  * a level registration loop in `setup_logging` (lines 84-96) installing the
    arcpy level-name map into the logging facility;
  * `arcpy_log_messages` (lines 123-146), the message relay: it reads the
    message batch from an arcpy `Result` handle and forwards each message to
    the dedicated message logger, shifting raw codes below 50 up by 20;
  * `arcpy_severity_context` (lines 149-171), a context manager that sets the
    arcpy severity threshold for a scope and restores the previous value in a
    `finally` block;
  * the `log_messages` decorator whose inner `wrapped_func` (lines 188-216)
    composes the above around an arbitrary tool invocation;
  * `print_header` (lines 224-252), a box-printing utility with a bare
    `except` fallback.

The embedding below is a shallow one: the process-wide mutable pieces (the
arcpy severity threshold and the two log sinks) are collected in an explicit
`BridgeState` record threaded through the functions, exceptions become
`Except` values, and every Python function of the bridge has a Lean function
of the same name.
-/

set_option autoImplicit false

namespace ArcTemplate

/-- A log call delivered to a sink: the numeric level and the message text.
Sinks are modelled as the ordered list of calls they received. -/
abbrev LogCall := Int × String

/-- One arcpy message as consumed by the relay: the source reads `message[0]`
(the raw severity code) and `message[-1]` (the text), so a message is
modelled as that pair of fields. -/
abbrev Message := Int × String

/-- The arcpy `Result` handle as used by `arcpy_log_messages`: it supplies
`resultID` and `getAllMessages()`. -/
structure ArcResult where
  resultID : String
  messages : List Message
  deriving DecidableEq, Repr

/-- The process-wide mutable state of the bridge: the arcpy severity
threshold (read and written through `GetSeverityLevel` / `SetSeverityLevel`)
and the two log sinks (the script logger and the dedicated `ArcpyMessages`
logger), each recorded as the ordered list of log calls made to it. -/
structure BridgeState where
  severity : Int
  script : List LogCall
  msgLog : List LogCall
  deriving DecidableEq, Repr

/-- Numeric level of `logger.debug` calls in the Python logging facility. -/
def DEBUG : Int := 10

/-- Numeric level of `logger.info` calls in the Python logging facility. -/
def INFO : Int := 20

/-- Numeric level of `logger.error` calls in the Python logging facility. -/
def ERROR : Int := 40

/-- The cutoff of the level shift in `arcpy_log_messages` (line 141):
raw codes strictly below this constant are treated as colliding with the
logging facility's reserved unset level and are shifted. The source comment
(lines 81-82) calls this the workaround for the clash with level 0. -/
def sentinelThreshold : Int := 50

/-- The shift added to raw codes below `sentinelThreshold` (line 142). -/
def shiftAmount : Int := 20

/-- The level-resolution rule applied by the relay loop (lines 140-142):
`msg_type = message[0]; if msg_type < 50: msg_type += 20`. -/
def resolve (rawCode : Int) : Int :=
  if rawCode < sentinelThreshold then rawCode + shiftAmount else rawCode

/-- The body of the `for message in messages` loop of `arcpy_log_messages`
(lines 139-144), threading the bridge state: each message is logged to the
message sink at its shifted level, with the text prefixed by the result id. -/
def relayLoop (result_id : String) : List Message → BridgeState → BridgeState
  | [], s => s
  | message :: rest, s =>
      let msg_type := message.1
      let msg_type := if msg_type < sentinelThreshold then msg_type + shiftAmount else msg_type
      let msg_content := message.2
      relayLoop result_id rest
        { s with msgLog := s.msgLog ++ [(msg_type, result_id ++ msg_content)] }

/-- `arcpy_log_messages(result, msg_logger)` (lines 123-146): reads the
batch from the handle, logs every message in order at its resolved level,
and returns the batch. The returned value is the first component; the
second is the state after the sink received the relayed calls. -/
def arcpy_log_messages (result : ArcResult) (s : BridgeState) :
    List Message × BridgeState :=
  let messages := result.messages
  let result_id := result.resultID
  (messages, relayLoop result_id messages s)

/-- `arcpy_severity_context(level)` (lines 149-171): reads the current
severity, sets it to `level`, runs the body, and in a `finally` block
restores the original value - whether the body returned normally or raised
(the body's outcome, an `Except`, is passed through unchanged). The two
`logger.debug` lines are recorded on the script sink. -/
def arcpy_severity_context {ε α : Type} (level : Int)
    (body : BridgeState → Except ε α × BridgeState) (s : BridgeState) :
    Except ε α × BridgeState :=
  let original_level := s.severity
  let entered : BridgeState :=
    { s with
      severity := level
      script := s.script ++ [(DEBUG, "arcpy severity set to level " ++ toString level)] }
  let r := body entered
  (r.1,
    { r.2 with
      severity := original_level
      script := r.2.script ++
        [(DEBUG, "arcpy severity level set to " ++ toString original_level)] })

/-- A tower of nested `arcpy_severity_context` scopes: `nestedScopes
[L1, ..., Ln] body` enters a scope at `L1`, inside it one at `L2`, and so
on, running `body` innermost. -/
def nestedScopes {ε α : Type} : List Int →
    (BridgeState → Except ε α × BridgeState) → BridgeState →
    Except ε α × BridgeState
  | [], body, s => body s
  | l :: ls, body, s => arcpy_severity_context l (nestedScopes ls body) s

/-- The failure classes dispatched on by `wrapped_func` (lines 198-210):
`arcpy.ExecuteError`, `arcpy.ExecuteWarning`, and any other exception
(carried with its description string, used in the log line). -/
inductive ArcErr where
  | executeError
  | executeWarning
  | other (desc : String)
  deriving DecidableEq, Repr

/-- `arcpy.GetAllMessages()` as called on lines 200, 205 and 209: it returns
the ambient message batch of the runtime. In the source its return value is
an expression statement - it is produced and immediately discarded. -/
def GetAllMessages (ambient : List Message) : List Message :=
  ambient

/-- The inner `wrapped_func` produced by `log_messages(severity)` applied to
a function (lines 188-216). The wrapped operation's outcome is `op`
(normal return with an arcpy `Result`, or one of the three failure
classes); `ambient` is what `arcpy.GetAllMessages()` would return at the
failure sites. Inside an `arcpy_severity_context` at the configured
severity, it logs the call line, dispatches on the outcome - each `except`
arm logs its error line, calls `GetAllMessages` (discarding the batch) and
re-raises, while the `else` arm logs the success line and relays the result
messages via `arcpy_log_messages` - and returns the outcome. -/
def wrapped_func (severity : Int) (funcName : String) (args : String)
    (op : Except ArcErr ArcResult) (ambient : List Message)
    (s : BridgeState) : Except ArcErr ArcResult × BridgeState :=
  arcpy_severity_context severity
    (fun s0 =>
      let s1 := { s0 with
        script := s0.script ++ [(INFO, funcName ++ " called with " ++ args)] }
      match op with
      | .error .executeError =>
          let s2 := { s1 with
            script := s1.script ++ [(ERROR, "ArcPy encounted an error")] }
          let _ := GetAllMessages ambient
          (.error .executeError, s2)
      | .error .executeWarning =>
          let s2 := { s1 with
            script := s1.script ++ [(ERROR, "ArcPy encounted an warning and will stop")] }
          let _ := GetAllMessages ambient
          (.error .executeWarning, s2)
      | .error (.other e) =>
          let s2 := { s1 with
            script := s1.script ++
              [(ERROR, "Unexpected Error in " ++ funcName ++ ": " ++ e)] }
          let _ := GetAllMessages ambient
          (.error (.other e), s2)
      | .ok result =>
          let s2 := { s1 with
            script := s1.script ++ [(INFO, funcName ++ " exectued successfully")] }
          let r := arcpy_log_messages result s2
          (.ok result, r.2)) s

/-- The level-name table of the logging facility, as touched by
`logging.addLevelName`: the pair of partial maps `_levelToName` and
`_nameToLevel`. -/
structure LevelTable where
  levelToName : Int → Option String
  nameToLevel : String → Option Int

/-- Point update of a partial map, the effect of one dictionary assignment. -/
def upd {κ ν : Type} [DecidableEq κ] (f : κ → Option ν) (k : κ) (v : ν) :
    κ → Option ν :=
  fun x => if x = k then some v else f x

/-- `logging.addLevelName(level, name)`: sets both directions of the table. -/
def addLevelName (t : LevelTable) (level : Int) (name : String) : LevelTable :=
  { levelToName := upd t.levelToName level name
    nameToLevel := upd t.nameToLevel name level }

/-- The `arcpy_log_level_map` dictionary of `setup_logging` (lines 84-94),
in its source order. -/
def arcpy_log_level_map : List (Int × String) :=
  [(20, "INFO"), (21, "DEFINITION"), (22, "START"), (23, "STOP"),
   (50, "WARNING"), (100, "ERROR"), (101, "EMPTY"), (102, "GDB_ERROR"),
   (200, "ABORT")]

/-- The registration loop of `setup_logging` (lines 95-96):
`for level, name in arcpy_log_level_map.items(): logging.addLevelName(level, name)`.
It is a total function on the table - no branch of it can raise. -/
def registerArcpyLevels (t : LevelTable) : LevelTable :=
  arcpy_log_level_map.foldl (fun t p => addLevelName t p.1 p.2) t

/-- Python `int()` truncation toward zero, applied to the rational value
`width_factor * columns` on line 242. -/
def pyTrunc (q : ℚ) : Int :=
  if 0 ≤ q then ⌊q⌋ else ⌈q⌉

/-- A string of `n` copies of a character, Python `c * n` (empty when the
width is not positive). -/
def repeatChar (c : Char) (n : Int) : String :=
  String.mk (List.replicate n.toNat c)

/-- Python center-alignment `f"{line:^{width}}"` for a nonnegative width:
total padding `width - len`, split with the smaller half on the left. -/
def centerPad (line : String) (width : Nat) : String :=
  let pad := width - line.length
  String.mk (List.replicate (pad / 2) ' ') ++ line ++
    String.mk (List.replicate (pad - pad / 2) ' ')

/-- The `try` body of `print_header` (lines 241-247). The two failure
points are `os.get_terminal_size()` (raises `OSError` when no terminal is
attached - modelled by `terminal_cols = none`) and the center-format
`f"{line:^{width}}"`, which raises `ValueError` when the interpolated
width is negative (the sign becomes part of the string format spec). On
success it returns the lines printed to stdout: the blank separator and
the box. -/
def print_header_body (msg : String) (width_factor : ℚ)
    (terminal_cols : Option Nat) : Except Unit (List String) :=
  match terminal_cols with
  | none => .error ()
  | some cols =>
      let lines := msg.splitOn "\n"
      let width : Int := pyTrunc (width_factor * cols)
      if width < 0 then .error ()
      else
        let box := "╔" ++ repeatChar '═' width ++ "╗\n"
        let box := box ++ String.join
          (lines.map (fun line => "║" ++ centerPad line width.toNat ++ "║\n"))
        let box := box ++ "╚" ++ repeatChar '═' width ++ "╝"
        .ok ["\n\n", box]

/-- `print_header(msg, width_factor)` (lines 224-252): runs the `try` body;
a bare `except:` catches every failure, prints the plain message and
returns `1`; otherwise it returns `0`. The first component is the list of
strings printed to stdout, the second the return code. -/
def print_header (msg : String) (width_factor : ℚ)
    (terminal_cols : Option Nat) : List String × Int :=
  match print_header_body msg width_factor terminal_cols with
  | .ok printed => (printed, 0)
  | .error _ => ([msg], 1)

/-- The relay loop appends to the message sink exactly the image of the
batch under `resolve` on levels and result-id prefixing on texts. -/
theorem relayLoop_spec (rid : String) :
    ∀ (ms : List Message) (s : BridgeState),
      relayLoop rid ms s =
        { s with msgLog := s.msgLog ++ ms.map (fun m => (resolve m.1, rid ++ m.2)) } := by
  intro ms
  induction ms with
  | nil => intro s; simp [relayLoop]
  | cons m rest ih => intro s; simp [relayLoop, resolve, ih]

/-- Claim C5: for every batch taken from an invocation handle, the relay
emits exactly one log call per message to the message sink, in batch order,
the i-th at level `resolve` of the i-th raw code (the appended calls are
literally the map of the batch), and the number of appended calls equals
the batch length - nothing dropped, nothing duplicated. -/
theorem relay_emits_batch_in_order (result : ArcResult) (s : BridgeState) :
    (arcpy_log_messages result s).2.msgLog =
      s.msgLog ++ result.messages.map (fun m => (resolve m.1, result.resultID ++ m.2))
    ∧ ((arcpy_log_messages result s).2.msgLog).length =
      s.msgLog.length + result.messages.length := by
  refine ⟨?_, ?_⟩ <;> simp [arcpy_log_messages, relayLoop_spec]

/-- Claim C9: the relay returns the batch it retrieved from the handle,
with every raw code and text unmodified - the level shift affects only the
emitted log levels, not the returned data. -/
theorem relay_returns_batch_unchanged (result : ArcResult) (s : BridgeState) :
    (arcpy_log_messages result s).1 = result.messages := rfl

/-- Claim C4: a raw code below the collision cutoff is relayed at
`rawCode + shiftAmount`, and a raw code at or above it is relayed at the
raw code unchanged; the `resolve` rule states the same shift. -/
theorem resolve_shift_rule (c : Int) (txt rid : String) (s : BridgeState) :
    (c < sentinelThreshold →
      resolve c = c + shiftAmount ∧
      (arcpy_log_messages ⟨rid, [(c, txt)]⟩ s).2.msgLog =
        s.msgLog ++ [(c + shiftAmount, rid ++ txt)])
    ∧ (sentinelThreshold ≤ c →
      resolve c = c ∧
      (arcpy_log_messages ⟨rid, [(c, txt)]⟩ s).2.msgLog =
        s.msgLog ++ [(c, rid ++ txt)]) := by
  constructor
  · intro h
    refine ⟨?_, ?_⟩ <;> simp [arcpy_log_messages, relayLoop_spec, resolve, h]
  · intro h
    have h' : ¬ c < sentinelThreshold := not_lt.mpr h
    refine ⟨?_, ?_⟩ <;> simp [arcpy_log_messages, relayLoop_spec, resolve, h']

/-- Witness for C4: the shift branch at raw code 20 and the unchanged
branch at raw code 100, on a concrete one-message batch. -/
theorem resolve_shift_rule_witness :
    (resolve 20 = 20 + shiftAmount ∧
      (arcpy_log_messages ⟨"r", [((20 : Int), "x")]⟩ ⟨2, [], []⟩).2.msgLog =
        ([] : List LogCall) ++ [((20 : Int) + shiftAmount, "r" ++ "x")])
    ∧ (resolve 100 = 100 ∧
      (arcpy_log_messages ⟨"r", [((100 : Int), "x")]⟩ ⟨2, [], []⟩).2.msgLog =
        ([] : List LogCall) ++ [((100 : Int), "r" ++ "x")]) :=
  ⟨(resolve_shift_rule 20 "x" "r" ⟨2, [], []⟩).1 (by decide),
   (resolve_shift_rule 100 "x" "r" ⟨2, [], []⟩).2 (by decide)⟩

/-- Counterexample to claim C3 as stated: `resolve` is not the identity on
its own output at raw code 0 - `resolve 0 = 20` but `resolve 20 = 40`,
because the shifted band `[20, 50)` still lies below the cutoff 50. -/
theorem resolve_not_idempotent_at_zero :
    resolve (resolve 0) ≠ resolve 0 := by decide

/-- Claim C3 amended: `resolve` is the identity on its own output for every
raw code at or above `sentinelThreshold - shiftAmount` (that is, 30); one
application of the shift moves those codes out of the shifted range. -/
theorem resolve_idempotent_above_band (c : Int)
    (h : sentinelThreshold - shiftAmount ≤ c) :
    resolve (resolve c) = resolve c := by
  simp only [resolve, sentinelThreshold, shiftAmount] at *
  split_ifs <;> omega

/-- Witness for the amended C3 at the concrete raw code 42. -/
theorem resolve_idempotent_above_band_witness :
    sentinelThreshold - shiftAmount ≤ (42 : Int)
    ∧ resolve (resolve 42) = resolve 42 :=
  ⟨by decide, resolve_idempotent_above_band 42 (by decide)⟩

/-- Claim C2: after a tower of nested severity scopes exits, the severity
threshold equals its value before the outermost scope was entered, for
every body - normal or raising, and however the body itself mutates the
state; moreover every individual scope restores, on every exit path,
exactly the threshold it read at its own entry. -/
theorem severity_restored_after_nested_scopes {ε α : Type}
    (l : Int) (ls : List Int)
    (body : BridgeState → Except ε α × BridgeState) (s : BridgeState) :
    (nestedScopes (l :: ls) body s).2.severity = s.severity
    ∧ ∀ (level : Int) (b : BridgeState → Except ε α × BridgeState)
        (t : BridgeState),
        (arcpy_severity_context level b t).2.severity = t.severity :=
  ⟨rfl, fun _ _ _ => rfl⟩

/-- Claim C7: the wrapper never swallows a failure - whatever failure class
the wrapped operation raises, under any configured severity, the wrapper's
outcome is that same failure re-raised unchanged, never a normal return. -/
theorem wrapper_reraises_every_failure (severity : Int)
    (funcName args : String) (e : ArcErr) (ambient : List Message)
    (s : BridgeState) :
    (wrapped_func severity funcName args (.error e) ambient s).1 = .error e := by
  cases e <;> rfl

/-- Claim C6: wrapping a no-argument operation that returns normally with
message batch `[(20, "done")]` under threshold 2 produces, on the script
sink, exactly the scope-entry debug line, one info start line and one info
success line (with the scope-exit debug line after them), appends to the
message sink exactly one relayed call at `resolve 20` - emitted after the
success line, so after the outcome is known - restores the severity
threshold, and returns the operation's result unchanged. -/
theorem wrapper_success_scenario (funcName args rid : String)
    (ambient : List Message) (s : BridgeState) :
    (wrapped_func 2 funcName args (.ok ⟨rid, [((20 : Int), "done")]⟩) ambient s).1 =
      .ok ⟨rid, [((20 : Int), "done")]⟩
    ∧ (wrapped_func 2 funcName args (.ok ⟨rid, [((20 : Int), "done")]⟩) ambient s).2.script =
      s.script ++
        [(DEBUG, "arcpy severity set to level " ++ toString (2 : Int)),
         (INFO, funcName ++ " called with " ++ args),
         (INFO, funcName ++ " exectued successfully"),
         (DEBUG, "arcpy severity level set to " ++ toString s.severity)]
    ∧ (wrapped_func 2 funcName args (.ok ⟨rid, [((20 : Int), "done")]⟩) ambient s).2.msgLog =
      s.msgLog ++ [(resolve 20, rid ++ "done")]
    ∧ (wrapped_func 2 funcName args (.ok ⟨rid, [((20 : Int), "done")]⟩) ambient s).2.severity =
      s.severity := by
  refine ⟨rfl, ?_, ?_, rfl⟩ <;>
    simp [wrapped_func, arcpy_severity_context, arcpy_log_messages,
      relayLoop_spec, resolve]

/-- Claim C1 evaluated at its failing input: wrapping an operation that
raises `arcpy.ExecuteError` under threshold 2, with a nonempty ambient
batch available from `GetAllMessages`, yields the start line, one error
outcome line and the re-raised failure - but the message sink receives no
relayed call at all: the `except` arm discards the value of
`arcpy.GetAllMessages()`, so the final `msgLog` is empty. -/
theorem wrapper_error_path_drops_relay :
    wrapped_func 2 "tool" "()" (.error .executeError)
        [((100 : Int), "boom")] ⟨2, [], []⟩ =
      (.error .executeError,
       ⟨2,
        [(DEBUG, "arcpy severity set to level " ++ toString (2 : Int)),
         (INFO, "tool called with ()"),
         (ERROR, "ArcPy encounted an error"),
         (DEBUG, "arcpy severity level set to " ++ toString (2 : Int))],
        []⟩) := rfl

/-- Sequential point updates of a partial map, one per pair of the list. -/
def updPairs {κ ν : Type} [DecidableEq κ] (L : List (κ × ν))
    (f : κ → Option ν) : κ → Option ν :=
  L.foldl (fun g p => upd g p.1 p.2) f

/-- A key touched by none of the pairs keeps its original value. -/
theorem updPairs_not_mem {κ ν : Type} [DecidableEq κ] (L : List (κ × ν)) :
    ∀ (f : κ → Option ν) (x : κ),
      (∀ p ∈ L, x ≠ p.1) → updPairs L f x = f x := by
  induction L with
  | nil => intro f x _; rfl
  | cons p L ih =>
      intro f x hx
      have h1 : x ≠ p.1 := hx p (by simp)
      have h2 : ∀ q ∈ L, x ≠ q.1 := fun q hq => hx q (by simp [hq])
      show updPairs L (upd f p.1 p.2) x = f x
      rw [ih _ x h2]
      simp [upd, h1]

/-- Two starting maps that agree outside the touched keys yield the same
map after the updates. -/
theorem updPairs_congr {κ ν : Type} [DecidableEq κ] (L : List (κ × ν)) :
    ∀ (f g : κ → Option ν),
      (∀ x, (∀ p ∈ L, x ≠ p.1) → f x = g x) →
      updPairs L f = updPairs L g := by
  induction L with
  | nil => intro f g h; funext x; exact h x (by simp)
  | cons p L ih =>
      intro f g h
      show updPairs L (upd f p.1 p.2) = updPairs L (upd g p.1 p.2)
      apply ih
      intro x hx
      by_cases hxp : x = p.1
      · simp [upd, hxp]
      · simp only [upd, if_neg hxp]
        refine h x ?_
        intro q hq
        rcases List.mem_cons.mp hq with hq | hq
        · rw [hq]; exact hxp
        · exact hx q hq

/-- Running the same update list a second time changes nothing. -/
theorem updPairs_idem {κ ν : Type} [DecidableEq κ] (L : List (κ × ν))
    (f : κ → Option ν) : updPairs L (updPairs L f) = updPairs L f :=
  updPairs_congr L _ _ (fun x hx => updPairs_not_mem L f x hx)

/-- The registration fold acts independently on the two directions of the
table: levels-to-names is updated with the pairs as given, names-to-levels
with the swapped pairs. -/
theorem register_decomp :
    ∀ (L : List (Int × String)) (t : LevelTable),
      L.foldl (fun t p => addLevelName t p.1 p.2) t =
        ⟨updPairs L t.levelToName,
         updPairs (L.map (fun p => (p.2, p.1))) t.nameToLevel⟩ := by
  intro L
  induction L with
  | nil => intro t; rfl
  | cons p L ih => intro t; simpa [updPairs] using ih (addLevelName t p.1 p.2)

/-- Claim C8: running the registration of the arcpy level map into the
level-name table twice leaves the table in exactly the state of running it
once; the registration is a total function, so the second run cannot
raise. -/
theorem register_idempotent (t : LevelTable) :
    registerArcpyLevels (registerArcpyLevels t) = registerArcpyLevels t := by
  simp only [registerArcpyLevels, register_decomp, updPairs_idem]

/-- Claim C10: the box-printing utility always returns a code instead of
propagating a failure - either the separator and the decorated box were
printed and the code is 0, or the fallback printed exactly the plain
message and the code is 1. -/
theorem print_header_total (msg : String) (wf : ℚ) (cols : Option Nat) :
    ((∃ box, (print_header msg wf cols).1 = ["\n\n", box])
      ∧ (print_header msg wf cols).2 = 0)
    ∨ ((print_header msg wf cols).1 = [msg]
      ∧ (print_header msg wf cols).2 = 1) := by
  unfold print_header print_header_body
  cases cols with
  | none => right; simp
  | some c =>
      by_cases h : pyTrunc (wf * c) < 0
      · right; simp [h]
      · left
        simp only [if_neg h]
        exact ⟨⟨_, rfl⟩, trivial⟩

end ArcTemplate
